import Mathlib

/-!
Verification of the PDF-Puller repository: a web app that builds an archive
proxy URL for a user-supplied target URL, renders that page to PDF through a
headless browser launched via an ordered list of fallback strategies, and
returns the PDF bytes.

The repository contains two parallel implementations of the same pipeline:
 * the "service" naming: `app/api/pdf-render/route.ts` (the part with keys
   archive-ph / wayback / twelve-ft and body field `service`), together with
   `lib/archiveServices.ts`; modelled below in namespace `PdfBeans`;
 * the "provider" naming: `src/features/archive/config/catalog.ts` plus the
   sibling renderer and route (keys archive-today / internet-archive /
   twelve-foot, body field `provider`); modelled in namespace `ArchiveStudio`.

External effects (puppeteer launch / newPage / goto / pdf / close, and the
request-body JSON parse) are modelled as oracle functions returning
`Except String`; every renderer run also produces a trace of the effectful
calls it made, so that properties such as "no browser launch is attempted"
or "close is invoked exactly once" are directly statable.
-/

/-- A JavaScript runtime value, restricted to the primitive shapes the request
handler inspects (`!x` truthiness and `typeof x === "string"`). A missing
object field destructures to `undefined`. -/
inductive JSValue where
  | str (s : String)
  | num (n : Int)
  | boolean (b : Bool)
  | null
  | undefined
deriving DecidableEq

/-- JavaScript falsiness for the modelled values: `""`, `0`, `false`, `null`
and `undefined` are falsy. -/
def jsFalsy : JSValue → Bool
  | .str s => s.isEmpty
  | .num n => n == 0
  | .boolean b => !b
  | .null => true
  | .undefined => true

/-- Whether `typeof v === "string"` holds. -/
def isJsString : JSValue → Bool
  | .str _ => true
  | _ => false

/-- The string payload of a `JSValue`; only consulted after an `isJsString`
guard, mirroring the TypeScript narrowing in the handler. -/
def asString : JSValue → String
  | .str s => s
  | _ => ""

/-- Property names inherited by every plain object literal from
`Object.prototype`; the JavaScript `key in obj` operator also returns `true`
for these, which matters for the catalogs' membership checks. -/
def OBJECT_PROTOTYPE_PROPS : List String :=
  ["constructor", "hasOwnProperty", "isPrototypeOf", "propertyIsEnumerable",
   "toLocaleString", "toString", "valueOf", "__proto__", "__defineGetter__",
   "__defineSetter__", "__lookupGetter__", "__lookupSetter__"]

/-- The JavaScript `key in obj` operator for a plain object literal whose own
keys are `ownKeys`: true for an own key or for a property inherited from
`Object.prototype`. -/
def jsIn (key : String) (ownKeys : List String) : Bool :=
  ownKeys.contains key || OBJECT_PROTOTYPE_PROPS.contains key

/-- UTF-8 byte sequence of a character (as natural numbers below 256). -/
def utf8Bytes (c : Char) : List Nat :=
  let n := c.toNat
  if n < 128 then [n]
  else if n < 2048 then [192 + n / 64, 128 + n % 64]
  else if n < 65536 then [224 + n / 4096, 128 + (n / 64) % 64, 128 + n % 64]
  else [240 + n / 262144, 128 + (n / 4096) % 64, 128 + (n / 64) % 64, 128 + n % 64]

/-- Upper-case hexadecimal digit for a value below 16. -/
def hexDigit (n : Nat) : String :=
  String.singleton (if n < 10 then Char.ofNat (48 + n) else Char.ofNat (55 + n))

/-- Percent-encoding of one byte, e.g. `pctByte 32 = "%20"`. -/
def pctByte (b : Nat) : String :=
  "%" ++ hexDigit (b / 16) ++ hexDigit (b % 16)

/-- Characters left unescaped by JavaScript `encodeURIComponent`:
ASCII letters, digits, and `- _ . ! ~ * ' ( )` (given by code point). -/
def isURIUnescaped (c : Char) : Bool :=
  (65 ≤ c.toNat && c.toNat ≤ 90) || (97 ≤ c.toNat && c.toNat ≤ 122) ||
  (48 ≤ c.toNat && c.toNat ≤ 57) ||
  [45, 95, 46, 33, 126, 42, 39, 40, 41].contains c.toNat

/-- JavaScript `encodeURIComponent`: every character outside the unescaped set
is replaced by the percent-encoding of its UTF-8 bytes. -/
def encodeURIComponent (s : String) : String :=
  String.join (s.data.map fun c =>
    if isURIUnescaped c then String.singleton c
    else String.join ((utf8Bytes c).map pctByte))

/-- Result of parsing a URL: the `protocol` property (scheme with trailing
colon) and the `toString()` re-serialization. -/
structure URLRecord where
  protocol : String
  serialized : String
deriving DecidableEq

/-- Split a character list at the first colon: scheme part and remainder. -/
def splitScheme : List Char → Option (List Char × List Char)
  | [] => none
  | c :: rest =>
    if c = ':' then some ([], rest)
    else
      match splitScheme rest with
      | some (s, r) => some (c :: s, r)
      | none => none

/-- Characters allowed after the first character of a URL scheme. -/
def isSchemeChar (c : Char) : Bool :=
  c.isAlpha || c.isDigit || c.toNat == 43 || c.toNat == 45 || c.toNat == 46

/-- WHATWG special schemes handled by the authority-based parser branch
(`file` is omitted: no claim involves it). -/
def SPECIAL_SCHEMES : List String := ["http", "https", "ws", "wss", "ftp"]

/-- Split host characters (up to the first `/`, `?` or `#`) from the rest. -/
def takeHost : List Char → List Char × List Char
  | [] => ([], [])
  | c :: rest =>
    if c = '/' || c = '?' || c = '#' then ([], c :: rest)
    else
      let (h, t) := takeHost rest
      (c :: h, t)

/-- Modelled from the spec: the platform `new URL` constructor used by the
handlers ("The URL is parsed and re-serialized"). Simplified WHATWG parser:
a valid scheme is required (else the constructor throws a TypeError with
message "Invalid URL", as Node does); for the special schemes an
`//authority` with a nonempty host is required and the serialization
reinstates a leading `/` path (so `https://example.com` re-serializes to
`https://example.com/`); other schemes keep their opaque remainder. -/
def parseURL (s : String) : Except String URLRecord :=
  match splitScheme s.data with
  | none => .error "Invalid URL"
  | some (schemeChars, rest) =>
    if !((schemeChars.head?.getD ' ').isAlpha && schemeChars.all isSchemeChar) then
      .error "Invalid URL"
    else
      let scheme := String.mk (schemeChars.map Char.toLower)
      if SPECIAL_SCHEMES.contains scheme then
        match rest with
        | '/' :: '/' :: afterSlashes =>
          let (hostChars, pathChars) := takeHost afterSlashes
          if hostChars.isEmpty then .error "Invalid URL"
          else
            let path :=
              if pathChars.isEmpty then "/"
              else if pathChars.head? = some '/' then String.mk pathChars
              else "/" ++ String.mk pathChars
            .ok { protocol := scheme ++ ":", serialized := scheme ++ "://" ++ String.mk hostChars ++ path }
        | _ => .error "Invalid URL"
      else
        .ok { protocol := scheme ++ ":", serialized := scheme ++ ":" ++ String.mk rest }

/-- One entry of a provider catalog: display label, description, and the
URL-building function. -/
structure CatalogEntry where
  label : String
  description : String
  buildUrl : String → String

/-- A headless-mode variant appearing in the launch strategies:
`headless: "new"`, `headless: "shell"`, or `headless: true`. -/
inductive HeadlessMode where
  | newMode
  | shellMode
  | legacyTrue
deriving DecidableEq

/-- One launch strategy: label plus launch options (headless variant and
Chromium argument list). -/
structure Strategy where
  label : String
  headless : HeadlessMode
  args : List String
deriving DecidableEq

/-- The full option record handed to `puppeteer.launch`: the fixed 45000 ms
timeout, the strategy's options, and the executable-path override taken from
the `PUPPETEER_EXECUTABLE_PATH` environment variable. -/
structure EffLaunchOptions where
  timeout : Nat
  headless : HeadlessMode
  args : List String
  executablePath : Option String
deriving DecidableEq

/-- Options of the `page.goto` call. -/
structure GotoOptions where
  waitUntil : String
  timeout : Nat
deriving DecidableEq

/-- Options of the `page.pdf` call. -/
structure PdfOptions where
  format : String
  printBackground : Bool
deriving DecidableEq

/-- Observable effectful calls made by one render request. -/
inductive Ev where
  | launchAttempt (label : String)
  | newPage
  | goto (url : String)
  | exportPdf
  | close
deriving DecidableEq

/-- Whether an event is the browser-close call. -/
def isCloseEv : Ev → Bool
  | .close => true
  | _ => false

/-- Oracles for the external puppeteer effects of one run: browser launch,
page creation, navigation, PDF export, and browser close. `β` is the type of
live browser handles, `π` of pages. -/
structure RenderEnv (β π : Type) where
  launch : EffLaunchOptions → Except String β
  newPage : β → Except String π
  goto : π → String → GotoOptions → Except String Unit
  exportPdf : π → PdfOptions → Except String (List Nat)
  close : β → Except String Unit

/-- JavaScript `Array.prototype.join("; ")` over the collected error strings. -/
def joinErrors : List String → String
  | [] => ""
  | [e] => e
  | e :: rest => e ++ "; " ++ joinErrors rest

/-- The options record built for one strategy inside the launch loop:
`puppeteer.launch(\x7b timeout: 45000, ...options, executablePath: ... \x7d)`. -/
def strategyOptions (envPath : Option String) (s : Strategy) : EffLaunchOptions :=
  { timeout := 45000, headless := s.headless, args := s.args, executablePath := envPath }

/-- The `for (const \x7b label, options \x7d of STRATEGIES)` loop of
`launchBrowser`, with the accumulated per-strategy error strings: the first
successful launch returns the handle with the strategy label; when the list
is exhausted the aggregate error is thrown. Also returns the trace of launch
attempts. -/
def launchLoop (L : EffLaunchOptions → Except String β) (envPath : Option String) :
    List Strategy → List String → Except String (β × String) × List Ev
  | [], errs =>
    (.error ("Failed to launch Chromium with Puppeteer. Tried strategies: " ++ joinErrors errs), [])
  | s :: rest, errs =>
    match L (strategyOptions envPath s) with
    | .ok b => (.ok (b, s.label), [.launchAttempt s.label])
    | .error e =>
      let r := launchLoop L envPath rest (errs ++ [s.label ++ ": " ++ e])
      (r.fst, .launchAttempt s.label :: r.snd)

/-- Boolean substring test: `strContains hay needle` is true when `needle`
occurs contiguously inside `hay`. -/
def strContains (hay needle : String) : Bool :=
  (List.range (hay.data.length + 1)).any fun i =>
    (hay.data.drop i).take needle.data.length = needle.data

/-- The result record `\x7b pdf, strategy, archiveUrl \x7d` of a successful render. -/
structure RenderResult where
  pdf : List Nat
  strategy : String
  archiveUrl : String
deriving DecidableEq

/-- The HTTP response produced by the POST handlers: either a JSON error body
`\x7b ok: false, message \x7d` with a status code, or a 200 PDF response whose
diagnostic headers carry the resolved archive URL and the launch-strategy
label, and whose body is the PDF bytes. (The `Content-Disposition` file name
embeds `Date.now()` and is not modelled.) -/
inductive HandlerResponse where
  | jsonError (status : Nat) (message : String)
  | pdfSuccess (archiveUrl : String) (strategy : String) (pdf : List Nat)
deriving DecidableEq

/-- HTTP status code of a response. -/
def statusOf : HandlerResponse → Nat
  | .jsonError s _ => s
  | .pdfSuccess _ _ _ => 200

/-- The destructured request body `\x7b url, service \x7d` (or `\x7b url, provider \x7d`);
a missing field is `undefined`. -/
structure RequestBody where
  url : JSValue
  service : JSValue

/-- Mapping of the renderer outcome to the handler response: a successful
render is streamed back with the diagnostic headers; a renderer exception is
caught by the outermost try/catch and becomes a 500 JSON error carrying the
exception's message. -/
def postRender : Except String RenderResult × List Ev → HandlerResponse × List Ev
  | (.ok r, tr) => (.pdfSuccess r.archiveUrl r.strategy r.pdf, tr)
  | (.error e, tr) => (.jsonError 500 e, tr)

namespace PdfBeans

/-- The fixed Chromium argument list shared by all three strategies. -/
def BASE_CHROME_ARGS : List String :=
  ["--no-sandbox", "--disable-setuid-sandbox", "--disable-dev-shm-usage",
   "--disable-accelerated-2d-canvas", "--disable-gpu", "--no-first-run",
   "--no-zygote", "--disable-extensions", "--disable-features=site-per-process",
   "--disable-site-isolation-trials", "--single-process",
   "--disable-background-networking", "--disable-background-timer-throttling",
   "--disable-breakpad", "--disable-component-update",
   "--disable-domain-reliability", "--disable-default-apps", "--mute-audio",
   "--no-default-browser-check", "--password-store=basic", "--use-mock-keychain"]

/-- The fixed ordered strategy list of the service-named route. -/
def STRATEGIES : List Strategy :=
  [{ label := "default-new-headless", headless := .newMode, args := BASE_CHROME_ARGS },
   { label := "shell-headless", headless := .shellMode, args := BASE_CHROME_ARGS },
   { label := "legacy-headless", headless := .legacyTrue, args := BASE_CHROME_ARGS }]

/-- The strategy at a given position of `STRATEGIES` (a throwaway default is
returned past the end). -/
def strategyAt (i : Nat) : Strategy :=
  STRATEGIES.getD i { label := "", headless := .newMode, args := [] }

/-- `ARCHIVE_SERVICES` of `lib/archiveServices.ts`: ordered own keys and
entries of the object literal. -/
def ARCHIVE_SERVICES : List (String × CatalogEntry) :=
  [("archive-ph",
    { label := "archive.ph",
      description := "Privacy-friendly archiving proxy often updated quickly.",
      buildUrl := fun target => "https://archive.ph/" ++ encodeURIComponent target }),
   ("wayback",
    { label := "Wayback Machine",
      description := "The Internet Archive snapshot viewer.",
      buildUrl := fun target => "https://web.archive.org/web/*/" ++ encodeURIComponent target }),
   ("twelve-ft",
    { label := "12ft.io",
      description := "Paywall bypass that proxies pages for reading.",
      buildUrl := fun target => "https://12ft.io/" ++ encodeURIComponent target })]

/-- Property access `ARCHIVE_SERVICES[key]` restricted to own keys; an
inherited `Object.prototype` member has no `buildUrl`, which is the `none`
case. -/
def lookupService (k : String) : Option CatalogEntry :=
  (ARCHIVE_SERVICES.find? fun p => p.fst = k).map Prod.snd

/-- `isArchiveService` of `lib/archiveServices.ts`:
`typeof value === "string" && value in ARCHIVE_SERVICES` — note the `in`
operator also accepts properties inherited from `Object.prototype`. -/
def isArchiveService (v : JSValue) : Bool :=
  isJsString v && jsIn (asString v) (ARCHIVE_SERVICES.map Prod.fst)

/-- `launchBrowser` of the service-named route: try the strategies strictly in
order with the fixed timeout and the environment executable-path override;
first success wins, exhaustion throws the aggregate error. (The function also
declares an unused `missingLibraries` set, which has no behavior.) -/
def launchBrowser (L : EffLaunchOptions → Except String β) (envPath : Option String) :
    Except String (β × String) × List Ev :=
  launchLoop L envPath STRATEGIES []

/-- `generatePdf` of the service-named route: resolve the archive URL via the
catalog's `buildUrl`, launch the browser through the fallback sequencer, open
a page, navigate with `networkidle2` and the fixed timeout, wait the grace
delay, export the PDF, and in a `finally` step close the browser with close
failures swallowed (`.catch(() => undefined)`). The access
`ARCHIVE_SERVICES[archiveService].buildUrl(...)` throws a TypeError when the
key is not an own key of the catalog. -/
def generatePdf (env : RenderEnv β π) (envPath : Option String)
    (archiveService : String) (targetUrl : String) :
    Except String RenderResult × List Ev :=
  match lookupService archiveService with
  | none => (.error "ARCHIVE_SERVICES[archiveService].buildUrl is not a function", [])
  | some entry =>
    let archiveUrl := entry.buildUrl targetUrl
    let l := launchBrowser env.launch envPath
    match l.fst with
    | .error e => (.error e, l.snd)
    | .ok (b, strat) =>
      let inner : Except String (List Nat) × List Ev :=
        match env.newPage b with
        | .error e => (.error e, [.newPage])
        | .ok page =>
          match env.goto page archiveUrl { waitUntil := "networkidle2", timeout := 45000 } with
          | .error e => (.error e, [.newPage, .goto archiveUrl])
          | .ok _ =>
            match env.exportPdf page { format := "A4", printBackground := true } with
            | .error e => (.error e, [.newPage, .goto archiveUrl, .exportPdf])
            | .ok bs => (.ok bs, [.newPage, .goto archiveUrl, .exportPdf])
      let result : Except String RenderResult :=
        match inner.fst with
        | .ok bs => .ok { pdf := bs, strategy := strat, archiveUrl := archiveUrl }
        | .error e => .error e
      let finalResult : Except String RenderResult :=
        match env.close b with
        | .ok _ => result
        | .error _ => result
      (finalResult, l.snd ++ inner.snd ++ [.close])

/-- The `POST` handler of the service-named route. The request-body JSON parse
happens inside the outermost try/catch, so a parse failure becomes a 500; then
the url and service fields are validated (400 on failure), the URL is parsed
and re-serialized with only http/https accepted (400 otherwise, via the inner
try/catch), and the renderer outcome is mapped by `postRender`. -/
def POST (body : Except String RequestBody) (env : RenderEnv β π) (envPath : Option String) :
    HandlerResponse × List Ev :=
  match body with
  | .error e => (.jsonError 500 e, [])
  | .ok rb =>
    if jsFalsy rb.url || !(isJsString rb.url) then
      (.jsonError 400 "A valid URL is required.", [])
    else if !(isArchiveService rb.service) then
      (.jsonError 400 "An archive service is required.", [])
    else
      match parseURL (asString rb.url) with
      | .error e => (.jsonError 400 e, [])
      | .ok u =>
        if u.protocol != "http:" && u.protocol != "https:" then
          (.jsonError 400 "Only HTTP(S) URLs are supported.", [])
        else
          postRender (generatePdf env envPath (asString rb.service) u.serialized)

end PdfBeans

namespace ArchiveStudio

/-- The fixed Chromium argument list of the provider-named renderer. -/
def BASE_CHROME_ARGS : List String :=
  ["--no-sandbox", "--disable-setuid-sandbox", "--disable-dev-shm-usage",
   "--disable-accelerated-2d-canvas", "--disable-gpu", "--no-first-run",
   "--no-zygote", "--disable-extensions", "--disable-features=site-per-process",
   "--disable-site-isolation-trials", "--single-process",
   "--disable-background-networking", "--disable-background-timer-throttling",
   "--disable-breakpad", "--disable-component-update",
   "--disable-domain-reliability", "--disable-default-apps", "--mute-audio",
   "--no-default-browser-check", "--password-store=basic", "--use-mock-keychain"]

/-- The fixed ordered strategy list of the provider-named renderer. -/
def STRATEGIES : List Strategy :=
  [{ label := "default-new-headless", headless := .newMode, args := BASE_CHROME_ARGS },
   { label := "shell-headless", headless := .shellMode, args := BASE_CHROME_ARGS },
   { label := "legacy-headless", headless := .legacyTrue, args := BASE_CHROME_ARGS }]

/-- `ARCHIVE_CATALOG` of `src/features/archive/config/catalog.ts`. -/
def ARCHIVE_CATALOG : List (String × CatalogEntry) :=
  [("archive-today",
    { label := "archive.ph",
      description := "Privacy-friendly archiving proxy often updated quickly.",
      buildUrl := fun target => "https://archive.ph/" ++ encodeURIComponent target }),
   ("internet-archive",
    { label := "Wayback Machine",
      description := "The Internet Archive snapshot viewer.",
      buildUrl := fun target => "https://web.archive.org/web/*/" ++ encodeURIComponent target }),
   ("twelve-foot",
    { label := "12ft.io",
      description := "Paywall bypass that proxies pages for reading.",
      buildUrl := fun target => "https://12ft.io/" ++ encodeURIComponent target })]

/-- Property access `ARCHIVE_CATALOG[key]` restricted to own keys. -/
def lookupProvider (k : String) : Option CatalogEntry :=
  (ARCHIVE_CATALOG.find? fun p => p.fst = k).map Prod.snd

/-- `isArchiveProvider` of `catalog.ts`:
`typeof value === "string" && value in ARCHIVE_CATALOG` — the `in` operator
also accepts properties inherited from `Object.prototype`. -/
def isArchiveProvider (v : JSValue) : Bool :=
  isJsString v && jsIn (asString v) (ARCHIVE_CATALOG.map Prod.fst)

/-- `launchBrowser` of the provider-named renderer (same strategy loop). -/
def launchBrowser (L : EffLaunchOptions → Except String β) (envPath : Option String) :
    Except String (β × String) × List Ev :=
  launchLoop L envPath STRATEGIES []

/-- `renderArchivePdf` of the provider-named renderer: identical pipeline to
`PdfBeans.generatePdf` over `ARCHIVE_CATALOG`. -/
def renderArchivePdf (env : RenderEnv β π) (envPath : Option String)
    (provider : String) (targetUrl : String) :
    Except String RenderResult × List Ev :=
  match lookupProvider provider with
  | none => (.error "ARCHIVE_CATALOG[provider].buildUrl is not a function", [])
  | some entry =>
    let archiveUrl := entry.buildUrl targetUrl
    let l := launchBrowser env.launch envPath
    match l.fst with
    | .error e => (.error e, l.snd)
    | .ok (b, strat) =>
      let inner : Except String (List Nat) × List Ev :=
        match env.newPage b with
        | .error e => (.error e, [.newPage])
        | .ok page =>
          match env.goto page archiveUrl { waitUntil := "networkidle2", timeout := 45000 } with
          | .error e => (.error e, [.newPage, .goto archiveUrl])
          | .ok _ =>
            match env.exportPdf page { format := "A4", printBackground := true } with
            | .error e => (.error e, [.newPage, .goto archiveUrl, .exportPdf])
            | .ok bs => (.ok bs, [.newPage, .goto archiveUrl, .exportPdf])
      let result : Except String RenderResult :=
        match inner.fst with
        | .ok bs => .ok { pdf := bs, strategy := strat, archiveUrl := archiveUrl }
        | .error e => .error e
      let finalResult : Except String RenderResult :=
        match env.close b with
        | .ok _ => result
        | .error _ => result
      (finalResult, l.snd ++ inner.snd ++ [.close])

end ArchiveStudio

/-- A concrete oracle environment in which every effect succeeds and the PDF
export returns the five magic bytes of a PDF file. -/
def envAllOk : RenderEnv Unit Unit :=
  { launch := fun _ => .ok (),
    newPage := fun _ => .ok (),
    goto := fun _ _ _ => .ok (),
    exportPdf := fun _ _ => .ok [37, 80, 68, 70, 45],
    close := fun _ => .ok () }

/-- A launch oracle that fails for the first two headless variants and
succeeds for the legacy one. -/
def launchThirdOk : EffLaunchOptions → Except String Unit :=
  fun o => if o.headless = HeadlessMode.legacyTrue then .ok () else .error "nope"

/-- A launch oracle for which every strategy fails with "spawn ENOENT". -/
def launchAllFail : EffLaunchOptions → Except String Unit :=
  fun _ => .error "spawn ENOENT"

/-- A concrete oracle environment in which every launch attempt fails. -/
def envLaunchFails : RenderEnv Unit Unit :=
  { launch := fun _ => .error "spawn ENOENT",
    newPage := fun _ => .ok (),
    goto := fun _ _ _ => .ok (),
    exportPdf := fun _ _ => .ok [37, 80, 68, 70, 45],
    close := fun _ => .ok () }

/-- Every event emitted by the launch loop is a launch attempt. -/
theorem launchLoop_trace_attempts (L : EffLaunchOptions → Except String β)
    (envPath : Option String) (ss : List Strategy) (errs : List String) :
    ∀ e ∈ (launchLoop L envPath ss errs).snd, ∃ lbl, e = Ev.launchAttempt lbl := by
  induction ss generalizing errs with
  | nil => intro e he; simp [launchLoop] at he
  | cons s rest ih =>
    intro e he
    simp only [launchLoop] at he
    cases hL : L (strategyOptions envPath s) with
    | ok b => rw [hL] at he; simp at he; exact ⟨s.label, he⟩
    | error msg =>
      rw [hL] at he
      simp only [List.mem_cons] at he
      rcases he with he | he
      · exact ⟨s.label, he⟩
      · exact ih _ e he

/-- A successful launch returns the label of one of the given strategies. -/
theorem launchLoop_ok_label_mem (L : EffLaunchOptions → Except String β)
    (envPath : Option String) (ss : List Strategy) (errs : List String)
    (b : β) (lab : String)
    (h : (launchLoop L envPath ss errs).fst = .ok (b, lab)) :
    lab ∈ ss.map Strategy.label := by
  induction ss generalizing errs with
  | nil => simp [launchLoop] at h
  | cons s rest ih =>
    simp only [launchLoop] at h
    cases hL : L (strategyOptions envPath s) with
    | ok b2 => rw [hL] at h; simp at h; simp [h.2]
    | error msg =>
      rw [hL] at h
      simp only [List.map_cons, List.mem_cons]
      exact Or.inr (ih _ h)

/-- First-success behavior of the launch loop, by induction over the strategy
list: if the strategy at position `i` launches successfully and all earlier
ones fail, the loop returns that strategy's handle and label, and the attempt
trace is exactly the first `i + 1` strategies in order. -/
theorem launchLoop_first_success (L : EffLaunchOptions → Except String β)
    (envPath : Option String) (d : Strategy) :
    ∀ (ss : List Strategy) (errs : List String) (i : Nat) (b : β),
      i < ss.length →
      L (strategyOptions envPath (ss.getD i d)) = .ok b →
      (∀ j, j < i → ∃ m, L (strategyOptions envPath (ss.getD j d)) = .error m) →
      (launchLoop L envPath ss errs).fst = .ok (b, (ss.getD i d).label) ∧
      (launchLoop L envPath ss errs).snd
        = (ss.take (i + 1)).map fun s => Ev.launchAttempt s.label := by
  intro ss
  induction ss with
  | nil => intro errs i b hi; simp at hi
  | cons s rest ih =>
    intro errs i b hi hsucc hfail
    match i with
    | 0 =>
      simp only [List.getD_cons_zero] at hsucc
      constructor
      · simp [launchLoop, hsucc]
      · simp [launchLoop, hsucc]
    | j + 1 =>
      obtain ⟨m, hm⟩ := hfail 0 (by omega)
      simp only [List.getD_cons_zero] at hm
      simp only [List.getD_cons_succ] at hsucc
      have hrec := ih (errs ++ [s.label ++ ": " ++ m]) j b (by simpa using hi) hsucc
        (fun k hk => by simpa using hfail (k + 1) (by omega))
      constructor
      · simp [launchLoop, hm, hrec.1]
      · simp [launchLoop, hm, hrec.2]

/-- Exhaustion behavior of the launch loop: when every strategy fails (with
message `m s` for strategy `s`), the loop throws the aggregate error built
from the accumulated label-prefixed messages joined by the delimiter. -/
theorem launchLoop_all_fail (L : EffLaunchOptions → Except String β)
    (envPath : Option String) (m : Strategy → String) :
    ∀ (ss : List Strategy) (errs : List String),
      (∀ s ∈ ss, L (strategyOptions envPath s) = .error (m s)) →
      (launchLoop L envPath ss errs).fst
        = .error ("Failed to launch Chromium with Puppeteer. Tried strategies: " ++
            joinErrors (errs ++ ss.map fun s => s.label ++ ": " ++ m s)) := by
  intro ss
  induction ss with
  | nil => intro errs _; simp [launchLoop]
  | cons s rest ih =>
    intro errs hfail
    have hs := hfail s (by simp)
    have hrec := ih (errs ++ [s.label ++ ": " ++ m s])
      (fun t ht => hfail t (by simp [ht]))
    simp only [launchLoop, hs]
    rw [hrec]
    simp

/-- Claim C1: the launch sequencer tries the fixed three-element strategy list
strictly in order; on the first strategy whose launch call succeeds it returns
the live browser handle paired with that strategy's label without attempting
any later strategy (the attempt trace is exactly the first `i + 1` strategies,
in list order), and no strategy is attempted more than once per request (the
trace is duplicate-free). -/
theorem c1_launch_sequencer_first_success (L : EffLaunchOptions → Except String β)
    (envPath : Option String) (i : Nat) (b : β)
    (hi : i < PdfBeans.STRATEGIES.length)
    (hsucc : L (strategyOptions envPath (PdfBeans.strategyAt i)) = .ok b)
    (hfail : ∀ j, j < i → ∃ m, L (strategyOptions envPath (PdfBeans.strategyAt j)) = .error m) :
    (PdfBeans.launchBrowser L envPath).fst = .ok (b, (PdfBeans.strategyAt i).label) ∧
    (PdfBeans.launchBrowser L envPath).snd
      = ((PdfBeans.STRATEGIES.take (i + 1)).map fun s => Ev.launchAttempt s.label) ∧
    ((PdfBeans.launchBrowser L envPath).snd).Nodup := by
  obtain ⟨h1, h2⟩ := launchLoop_first_success L envPath
    { label := "", headless := .newMode, args := [] }
    PdfBeans.STRATEGIES [] i b hi hsucc hfail
  refine ⟨h1, h2, ?_⟩
  simp only [PdfBeans.launchBrowser]
  rw [h2]
  simp only [PdfBeans.STRATEGIES, List.length_cons, List.length_nil] at hi
  match i with
  | 0 => decide
  | 1 => decide
  | 2 => decide
  | n + 3 => omega


/-- Witness for claim C1, at the oracle that only the third strategy can
launch: the sequencer returns the third label and attempts each of the three
strategies exactly once, in order. -/
theorem c1_witness :
    (PdfBeans.launchBrowser launchThirdOk none).fst = .ok ((), "legacy-headless") ∧
    (PdfBeans.launchBrowser launchThirdOk none).snd
      = [Ev.launchAttempt "default-new-headless", Ev.launchAttempt "shell-headless",
         Ev.launchAttempt "legacy-headless"] ∧
    ((PdfBeans.launchBrowser launchThirdOk none).snd).Nodup :=
  c1_launch_sequencer_first_success launchThirdOk none 2 ()
    (by simp [PdfBeans.STRATEGIES])
    rfl
    (by
      intro j hj
      match j with
      | 0 => exact ⟨"nope", rfl⟩
      | 1 => exact ⟨"nope", rfl⟩
      | n + 2 => omega)

/-- Claim C2: if every one of the three launch strategies fails, the sequencer
throws a single aggregate error whose message is the fixed failure text
followed by, for every strategy, its label then ": " then that strategy's
failure message, joined by the "; " delimiter; each label-prefixed entry
occurs inside the message, and this aggregate message is the whole error
surfaced to the caller. -/
theorem c2_launch_exhaustion_aggregate_error (L : EffLaunchOptions → Except String β)
    (envPath : Option String) (m : Strategy → String)
    (hfail : ∀ s ∈ PdfBeans.STRATEGIES, L (strategyOptions envPath s) = .error (m s)) :
    ∃ msg, (PdfBeans.launchBrowser L envPath).fst = .error msg ∧
      msg = "Failed to launch Chromium with Puppeteer. Tried strategies: " ++
        joinErrors (PdfBeans.STRATEGIES.map fun s => s.label ++ ": " ++ m s) ∧
      ∀ s ∈ PdfBeans.STRATEGIES, ∃ pre post, msg = pre ++ (s.label ++ ": " ++ m s) ++ post := by
  have h := launchLoop_all_fail L envPath m PdfBeans.STRATEGIES [] hfail
  refine ⟨_, by simpa [PdfBeans.launchBrowser] using h, rfl, ?_⟩
  intro s hs
  simp only [PdfBeans.STRATEGIES, List.mem_cons, List.not_mem_nil, or_false] at hs
  rcases hs with hs | hs | hs <;> subst hs
  · exact ⟨"Failed to launch Chromium with Puppeteer. Tried strategies: ",
      "; " ++ joinErrors (PdfBeans.STRATEGIES.drop 1 |>.map fun s => s.label ++ ": " ++ m s),
      by simp [PdfBeans.STRATEGIES, joinErrors, String.append_assoc]⟩
  · refine ⟨"Failed to launch Chromium with Puppeteer. Tried strategies: " ++
      (((PdfBeans.strategyAt 0).label ++ ": " ++ m (PdfBeans.strategyAt 0)) ++ "; "),
      "; " ++ ((PdfBeans.strategyAt 2).label ++ ": " ++ m (PdfBeans.strategyAt 2)), ?_⟩
    simp [PdfBeans.STRATEGIES, PdfBeans.strategyAt, joinErrors, String.append_assoc]
  · refine ⟨"Failed to launch Chromium with Puppeteer. Tried strategies: " ++
      (((PdfBeans.strategyAt 0).label ++ ": " ++ m (PdfBeans.strategyAt 0)) ++ "; ") ++
      (((PdfBeans.strategyAt 1).label ++ ": " ++ m (PdfBeans.strategyAt 1)) ++ "; "),
      "", ?_⟩
    simp [PdfBeans.STRATEGIES, PdfBeans.strategyAt, joinErrors, String.append_assoc]


/-- Witness for claim C2: with every strategy failing with "spawn ENOENT", the
sequencer surfaces the single aggregate message listing all three labels with
their error texts. -/
theorem c2_witness :
    (PdfBeans.launchBrowser launchAllFail none).fst
      = .error ("Failed to launch Chromium with Puppeteer. Tried strategies: " ++
          "default-new-headless: spawn ENOENT; shell-headless: spawn ENOENT; " ++
          "legacy-headless: spawn ENOENT") := by
  obtain ⟨msg, h1, h2, _⟩ := c2_launch_exhaustion_aggregate_error launchAllFail none
    (fun _ => "spawn ENOENT") (fun s _ => rfl)
  rw [h1, h2]
  rfl

/-- Claim C5: for every provider catalog entry (in both catalogs), `buildUrl`
is pure and deterministic — repeated application to the same input gives the
same result — and its value is the entry's fixed URL stem followed by the
percent-encoded form of the input; in particular the archive-ph entry on
input "https://a.com/b c" yields
"https://archive.ph/https%3A%2F%2Fa.com%2Fb%20c". -/
theorem c5_buildUrl_pure_percent_encoding :
    (∀ x, (PdfBeans.lookupService "archive-ph").map (fun e => e.buildUrl x)
        = some ("https://archive.ph/" ++ encodeURIComponent x)) ∧
    (∀ x, (PdfBeans.lookupService "wayback").map (fun e => e.buildUrl x)
        = some ("https://web.archive.org/web/*/" ++ encodeURIComponent x)) ∧
    (∀ x, (PdfBeans.lookupService "twelve-ft").map (fun e => e.buildUrl x)
        = some ("https://12ft.io/" ++ encodeURIComponent x)) ∧
    (∀ x, (ArchiveStudio.lookupProvider "archive-today").map (fun e => e.buildUrl x)
        = some ("https://archive.ph/" ++ encodeURIComponent x)) ∧
    (∀ x, (ArchiveStudio.lookupProvider "internet-archive").map (fun e => e.buildUrl x)
        = some ("https://web.archive.org/web/*/" ++ encodeURIComponent x)) ∧
    (∀ x, (ArchiveStudio.lookupProvider "twelve-foot").map (fun e => e.buildUrl x)
        = some ("https://12ft.io/" ++ encodeURIComponent x)) ∧
    (∀ x, (PdfBeans.lookupService "archive-ph").map (fun e => e.buildUrl x)
        = (PdfBeans.lookupService "archive-ph").map (fun e => e.buildUrl x)) ∧
    (PdfBeans.lookupService "archive-ph").map (fun e => e.buildUrl "https://a.com/b c")
      = some "https://archive.ph/https%3A%2F%2Fa.com%2Fb%20c" :=
  ⟨fun _ => rfl, fun _ => rfl, fun _ => rfl, fun _ => rfl, fun _ => rfl, fun _ => rfl,
   fun _ => rfl, rfl⟩

/-- Claim C9: the two sibling implementations are semantically equivalent up
to field names and catalog key names: they use equal strategy lists, the
launch sequencers agree for every oracle, corresponding catalog keys build
the same archive URL for every target, and the two renderers produce the same
result (pdf, strategy, archiveUrl) and the same effect trace for every
oracle environment and target URL. -/
theorem c9_sibling_equivalence :
    PdfBeans.STRATEGIES = ArchiveStudio.STRATEGIES ∧
    (∀ (β : Type) (L : EffLaunchOptions → Except String β) (envPath : Option String),
       PdfBeans.launchBrowser L envPath = ArchiveStudio.launchBrowser L envPath) ∧
    (∀ x, (PdfBeans.lookupService "archive-ph").map (fun e => e.buildUrl x)
        = (ArchiveStudio.lookupProvider "archive-today").map (fun e => e.buildUrl x)) ∧
    (∀ x, (PdfBeans.lookupService "wayback").map (fun e => e.buildUrl x)
        = (ArchiveStudio.lookupProvider "internet-archive").map (fun e => e.buildUrl x)) ∧
    (∀ x, (PdfBeans.lookupService "twelve-ft").map (fun e => e.buildUrl x)
        = (ArchiveStudio.lookupProvider "twelve-foot").map (fun e => e.buildUrl x)) ∧
    (∀ (β π : Type) (env : RenderEnv β π) (envPath : Option String) (t : String),
       PdfBeans.generatePdf env envPath "archive-ph" t
         = ArchiveStudio.renderArchivePdf env envPath "archive-today" t) ∧
    (∀ (β π : Type) (env : RenderEnv β π) (envPath : Option String) (t : String),
       PdfBeans.generatePdf env envPath "wayback" t
         = ArchiveStudio.renderArchivePdf env envPath "internet-archive" t) ∧
    (∀ (β π : Type) (env : RenderEnv β π) (envPath : Option String) (t : String),
       PdfBeans.generatePdf env envPath "twelve-ft" t
         = ArchiveStudio.renderArchivePdf env envPath "twelve-foot" t) :=
  ⟨rfl, fun _ _ _ => rfl, fun _ => rfl, fun _ => rfl, fun _ => rfl,
   fun _ _ _ _ _ => rfl, fun _ _ _ _ _ => rfl, fun _ _ _ _ _ => rfl⟩

/-- Claim C10: a request whose body fails to parse as JSON is answered with a
server error (status 500, JSON error body carrying the parse exception's
message) rather than a client error, because the body-parse step runs inside
the outermost try/catch; no browser launch is attempted (empty effect
trace). -/
theorem c10_unparsable_body_maps_to_500 (e : String) (env : RenderEnv β π)
    (envPath : Option String) :
    PdfBeans.POST (.error e) env envPath = (.jsonError 500 e, []) ∧
    statusOf (PdfBeans.POST (.error e) env envPath).fst = 500 :=
  ⟨rfl, rfl⟩

/-- Claim C3 (failing-input evaluation): the service/provider validation uses
the JavaScript `in` operator, which also accepts property names inherited
from `Object.prototype`; for the body with url "https://example.com" and
service "toString" — not one of the three catalog keys — validation passes in
both catalogs, the later catalog access throws, and the handler answers 500,
not the claimed 400. For genuinely unknown keys and for missing, empty or
non-string urls the claimed 400-without-launch behavior does hold, as the
remaining conjuncts show. -/
theorem c3_prototype_key_evades_validation :
    PdfBeans.isArchiveService (.str "toString") = true ∧
    ArchiveStudio.isArchiveProvider (.str "toString") = true ∧
    PdfBeans.POST (.ok ⟨.str "https://example.com", .str "toString"⟩) envAllOk none
      = (.jsonError 500 "ARCHIVE_SERVICES[archiveService].buildUrl is not a function", []) ∧
    statusOf (PdfBeans.POST (.ok ⟨.str "https://example.com", .str "toString"⟩) envAllOk none).fst
      = 500 ∧
    PdfBeans.POST (.ok ⟨.str "https://example.com", .str "bogus"⟩) envAllOk none
      = (.jsonError 400 "An archive service is required.", []) ∧
    PdfBeans.POST (.ok ⟨.str "https://example.com", .num 3⟩) envAllOk none
      = (.jsonError 400 "An archive service is required.", []) ∧
    PdfBeans.POST (.ok ⟨.undefined, .str "wayback"⟩) envAllOk none
      = (.jsonError 400 "A valid URL is required.", []) ∧
    PdfBeans.POST (.ok ⟨.str "", .str "wayback"⟩) envAllOk none
      = (.jsonError 400 "A valid URL is required.", []) ∧
    PdfBeans.POST (.ok ⟨.num 5, .str "wayback"⟩) envAllOk none
      = (.jsonError 400 "A valid URL is required.", []) :=
  ⟨rfl, rfl, rfl, rfl, rfl, rfl, rfl, rfl, rfl⟩

/-- Successful-path behavior of the renderer: with a catalog entry found, a
successful launch, and successful newPage/goto/export oracles, the renderer
returns the PDF bytes with the winning strategy label and the built archive
URL, and its trace is the launch attempts followed by newPage, goto, export
and exactly one close. -/
theorem generatePdf_success (env : RenderEnv β π) (envPath : Option String)
    (sk : String) (entry : CatalogEntry) (t : String) (b : β) (lab : String)
    (pg : π) (bs : List Nat)
    (hk : PdfBeans.lookupService sk = some entry)
    (hl : (PdfBeans.launchBrowser env.launch envPath).fst = .ok (b, lab))
    (hnp : env.newPage b = .ok pg)
    (hg : env.goto pg (entry.buildUrl t) { waitUntil := "networkidle2", timeout := 45000 } = .ok ())
    (hx : env.exportPdf pg { format := "A4", printBackground := true } = .ok bs) :
    PdfBeans.generatePdf env envPath sk t
      = (.ok { pdf := bs, strategy := lab, archiveUrl := entry.buildUrl t },
         (PdfBeans.launchBrowser env.launch envPath).snd
           ++ [.newPage, .goto (entry.buildUrl t), .exportPdf, .close]) := by
  simp only [PdfBeans.generatePdf, hk, hl, hnp, hg, hx]
  cases hc : env.close b <;> simp

/-- Claim C7: in every render invocation that reaches a successful browser
launch, the browser-close step is invoked exactly once (the trace contains
exactly one close event), whatever the outcomes of newPage, navigation and
PDF export; and a failure of the close call itself is swallowed — replacing
the close oracle by any other changes neither the render result nor the
surfaced error. -/
theorem c7_close_invoked_exactly_once (env : RenderEnv β π) (envPath : Option String)
    (sk : String) (entry : CatalogEntry) (t : String) (b : β) (lab : String)
    (hk : PdfBeans.lookupService sk = some entry)
    (hl : (PdfBeans.launchBrowser env.launch envPath).fst = .ok (b, lab)) :
    ((PdfBeans.generatePdf env envPath sk t).snd.countP isCloseEv) = 1 ∧
    ∀ c2 : β → Except String Unit,
      (PdfBeans.generatePdf { env with close := c2 } envPath sk t).fst
        = (PdfBeans.generatePdf env envPath sk t).fst := by
  have hlaunch0 : ((PdfBeans.launchBrowser env.launch envPath).snd.countP isCloseEv) = 0 := by
    refine List.countP_eq_zero.mpr ?_
    intro e he
    obtain ⟨lbl, rfl⟩ := launchLoop_trace_attempts env.launch envPath PdfBeans.STRATEGIES [] e he
    simp [isCloseEv]
  constructor
  · simp only [PdfBeans.generatePdf, hk, hl]
    cases hnp : env.newPage b with
    | error e =>
      cases hc : env.close b <;>
        simp [hnp, hc, List.countP_append, hlaunch0, isCloseEv, List.countP_cons]
    | ok pg =>
      cases hg : env.goto pg (entry.buildUrl t) { waitUntil := "networkidle2", timeout := 45000 } with
      | error e =>
        cases hc : env.close b <;>
          simp [hnp, hg, hc, List.countP_append, hlaunch0, isCloseEv, List.countP_cons]
      | ok u =>
        cases hx : env.exportPdf pg { format := "A4", printBackground := true } with
        | error e =>
          cases hc : env.close b <;>
            simp [hnp, hg, hx, hc, List.countP_append, hlaunch0, isCloseEv, List.countP_cons]
        | ok bs =>
          cases hc : env.close b <;>
            simp [hnp, hg, hx, hc, List.countP_append, hlaunch0, isCloseEv, List.countP_cons]
  · intro c2
    simp only [PdfBeans.generatePdf, hk, hl]
    cases hnp : env.newPage b with
    | error e =>
      cases hc : env.close b <;> cases hc2 : c2 b <;> simp [hnp, hc, hc2]
    | ok pg =>
      cases hg : env.goto pg (entry.buildUrl t) { waitUntil := "networkidle2", timeout := 45000 } with
      | error e =>
        cases hc : env.close b <;> cases hc2 : c2 b <;> simp [hnp, hg, hc, hc2]
      | ok u =>
        cases hx : env.exportPdf pg { format := "A4", printBackground := true } with
        | error e =>
          cases hc : env.close b <;> cases hc2 : c2 b <;> simp [hnp, hg, hx, hc, hc2]
        | ok bs =>
          cases hc : env.close b <;> cases hc2 : c2 b <;> simp [hnp, hg, hx, hc, hc2]

/-- Witness for claim C7: in the all-successful oracle environment rendering
through the wayback entry, the close event occurs exactly once, and an
always-failing close oracle leaves the render result unchanged. -/
theorem c7_witness :
    ((PdfBeans.generatePdf envAllOk none "wayback" "https://example.com/").snd.countP isCloseEv) = 1 ∧
    (PdfBeans.generatePdf { envAllOk with close := fun _ => .error "close failed" } none
        "wayback" "https://example.com/").fst
      = (PdfBeans.generatePdf envAllOk none "wayback" "https://example.com/").fst :=
  ⟨(c7_close_invoked_exactly_once envAllOk none "wayback" _ "https://example.com/" ()
      "default-new-headless" rfl rfl).1,
   (c7_close_invoked_exactly_once envAllOk none "wayback" _ "https://example.com/" ()
      "default-new-headless" rfl rfl).2 (fun _ => .error "close failed")⟩

/-- Claim C8: every exception the renderer produces after validation passes
(launch exhaustion, navigation failure, export failure, or any other) is
caught at the request boundary and mapped to a 500 JSON error response whose
message is the exception's own message; the handler's effect trace is exactly
the single renderer invocation's trace, so no renderer exception escapes and
no request-level retry occurs. -/
theorem c8_renderer_exception_maps_to_500 (rb : RequestBody) (env : RenderEnv β π)
    (envPath : Option String) (u : URLRecord) (e : String) (tr : List Ev)
    (hu : jsFalsy rb.url = false) (hs : isJsString rb.url = true)
    (hk : PdfBeans.isArchiveService rb.service = true)
    (hp : parseURL (asString rb.url) = .ok u)
    (hsch : u.protocol = "http:" ∨ u.protocol = "https:")
    (hrend : PdfBeans.generatePdf env envPath (asString rb.service) u.serialized
      = (.error e, tr)) :
    PdfBeans.POST (.ok rb) env envPath = (.jsonError 500 e, tr) := by
  simp only [PdfBeans.POST, hu, hs, hk, hp, hrend, Bool.not_true, Bool.or_false]
  rcases hsch with h | h <;> simp [h, postRender, hrend]

/-- Witness for claim C8: with every launch strategy failing, the POST handler
for a fully valid body returns 500 carrying the aggregate launch-exhaustion
message, and its trace is the single render attempt's three launch events. -/
theorem c8_witness :
    PdfBeans.POST (.ok ⟨.str "https://example.com", .str "wayback"⟩) envLaunchFails none
      = (.jsonError 500 ("Failed to launch Chromium with Puppeteer. Tried strategies: " ++
          "default-new-headless: spawn ENOENT; shell-headless: spawn ENOENT; " ++
          "legacy-headless: spawn ENOENT"),
         [Ev.launchAttempt "default-new-headless", Ev.launchAttempt "shell-headless",
          Ev.launchAttempt "legacy-headless"]) :=
  c8_renderer_exception_maps_to_500 ⟨.str "https://example.com", .str "wayback"⟩
    envLaunchFails none ⟨"https:", "https://example.com/"⟩
    ("Failed to launch Chromium with Puppeteer. Tried strategies: " ++
      "default-new-headless: spawn ENOENT; shell-headless: spawn ENOENT; " ++
      "legacy-headless: spawn ENOENT")
    [Ev.launchAttempt "default-new-headless", Ev.launchAttempt "shell-headless",
     Ev.launchAttempt "legacy-headless"]
    rfl rfl rfl rfl (Or.inr rfl) rfl

/-- Claim C4 (amended): with a non-empty string url field and a service value
accepted by the catalog check, (a) a url that fails to parse is rejected with
a 400 client error carrying the parse failure's message, with no launch
attempted; (b) a url parsing to a scheme other than http or https is rejected
with the 400 message "Only HTTP(S) URLs are supported.", which references
"HTTP(S)", with no launch attempted; (c) an accepted url is passed onward to
the renderer in its parsed-and-re-serialized form. -/
theorem c4_scheme_validation (rb : RequestBody) (env : RenderEnv β π)
    (envPath : Option String)
    (hu : jsFalsy rb.url = false) (hs : isJsString rb.url = true)
    (hk : PdfBeans.isArchiveService rb.service = true) :
    (∀ e, parseURL (asString rb.url) = .error e →
        PdfBeans.POST (.ok rb) env envPath = (.jsonError 400 e, [])) ∧
    (∀ u, parseURL (asString rb.url) = .ok u →
        u.protocol ≠ "http:" → u.protocol ≠ "https:" →
        PdfBeans.POST (.ok rb) env envPath
            = (.jsonError 400 "Only HTTP(S) URLs are supported.", []) ∧
          strContains "Only HTTP(S) URLs are supported." "HTTP(S)" = true) ∧
    (∀ u, parseURL (asString rb.url) = .ok u →
        (u.protocol = "http:" ∨ u.protocol = "https:") →
        PdfBeans.POST (.ok rb) env envPath
          = postRender (PdfBeans.generatePdf env envPath (asString rb.service) u.serialized)) := by
  refine ⟨?_, ?_, ?_⟩
  · intro e hp
    simp [PdfBeans.POST, hu, hs, hk, hp]
  · intro u hp h1 h2
    refine ⟨?_, by decide⟩
    simp [PdfBeans.POST, hu, hs, hk, hp, h1, h2]
  · intro u hp hsch
    rcases hsch with h | h <;> simp [PdfBeans.POST, hu, hs, hk, hp, h]

/-- Counterexample for claim C4 as stated: the url "notaurl" fails to parse,
and the handler's 400 client error carries the parse error's message
"Invalid URL", which does not reference "HTTP(S)". -/
theorem c4_counterexample :
    PdfBeans.POST (.ok ⟨.str "notaurl", .str "archive-ph"⟩) envAllOk none
      = (.jsonError 400 "Invalid URL", []) ∧
    strContains "Invalid URL" "HTTP(S)" = false :=
  ⟨rfl, by decide⟩

/-- Witness for claim C4: a wholly concrete instance of each conjunct — the
unparsable url "notaurl" gives 400 "Invalid URL"; the ftp url gives the 400
HTTP(S) message; the accepted https url is handed to the renderer
re-serialized with its trailing slash. -/
theorem c4_witness :
    PdfBeans.POST (.ok ⟨.str "notaurl", .str "wayback"⟩) envAllOk none
      = (.jsonError 400 "Invalid URL", []) ∧
    PdfBeans.POST (.ok ⟨.str "ftp://files.example.com/a", .str "wayback"⟩) envAllOk none
      = (.jsonError 400 "Only HTTP(S) URLs are supported.", []) ∧
    PdfBeans.POST (.ok ⟨.str "https://example.com", .str "wayback"⟩) envAllOk none
      = postRender (PdfBeans.generatePdf envAllOk none "wayback" "https://example.com/") :=
  ⟨(c4_scheme_validation ⟨.str "notaurl", .str "wayback"⟩ envAllOk none rfl rfl rfl).1
      "Invalid URL" rfl,
   ((c4_scheme_validation ⟨.str "ftp://files.example.com/a", .str "wayback"⟩ envAllOk none
      rfl rfl rfl).2.1 ⟨"ftp:", "ftp://files.example.com/a"⟩ rfl
      (by decide) (by decide)).1,
   (c4_scheme_validation ⟨.str "https://example.com", .str "wayback"⟩ envAllOk none
      rfl rfl rfl).2.2 ⟨"https:", "https://example.com/"⟩ rfl (Or.inr rfl)⟩

/-- Claim C6 (amended): for the body with url "https://example.com" and the
wayback catalog key (field `service` in this route), the renderer receives
exactly the proxy URL
"https://web.archive.org/web/*/https%3A%2F%2Fexample.com%2F" — the input is
re-serialized to "https://example.com/" before percent-encoding, so the
encoded form ends in %2F — and on a successful render the response carries
that exact proxy URL and the non-empty label of the winning launch strategy
in its diagnostic headers, with the renderer's output bytes as body. -/
theorem c6_wayback_end_to_end (env : RenderEnv β π) (envPath : Option String)
    (b : β) (lab : String) (pg : π) (bs : List Nat)
    (h1 : (PdfBeans.launchBrowser env.launch envPath).fst = .ok (b, lab))
    (h2 : env.newPage b = .ok pg)
    (h3 : env.goto pg "https://web.archive.org/web/*/https%3A%2F%2Fexample.com%2F"
        { waitUntil := "networkidle2", timeout := 45000 } = .ok ())
    (h4 : env.exportPdf pg { format := "A4", printBackground := true } = .ok bs) :
    (PdfBeans.POST (.ok ⟨.str "https://example.com", .str "wayback"⟩) env envPath).fst
      = .pdfSuccess "https://web.archive.org/web/*/https%3A%2F%2Fexample.com%2F" lab bs ∧
    lab ≠ "" := by
  constructor
  · have hstep : PdfBeans.POST (.ok ⟨.str "https://example.com", .str "wayback"⟩) env envPath
        = postRender (PdfBeans.generatePdf env envPath "wayback" "https://example.com/") := rfl
    have hgen := generatePdf_success env envPath "wayback"
      { label := "Wayback Machine", description := "The Internet Archive snapshot viewer.",
        buildUrl := fun target => "https://web.archive.org/web/*/" ++ encodeURIComponent target }
      "https://example.com/" b lab pg bs rfl h1 h2 h3 h4
    rw [hstep, hgen]
    rfl
  · have hmem := launchLoop_ok_label_mem env.launch envPath PdfBeans.STRATEGIES [] b lab h1
    simp only [PdfBeans.STRATEGIES, List.map_cons, List.map_nil, List.mem_cons,
      List.not_mem_nil, or_false] at hmem
    rcases hmem with h | h | h <;> subst h <;> decide

/-- Counterexample for claim C6 as stated: in the all-successful environment
the proxy URL actually received and surfaced for url "https://example.com" is
"https://web.archive.org/web/*/https%3A%2F%2Fexample.com%2F" (with the
re-serialized trailing slash encoded as %2F), which differs from the claimed
"https://web.archive.org/web/*/https%3A%2F%2Fexample.com". -/
theorem c6_counterexample :
    (PdfBeans.POST (.ok ⟨.str "https://example.com", .str "wayback"⟩) envAllOk none).fst
      = .pdfSuccess "https://web.archive.org/web/*/https%3A%2F%2Fexample.com%2F"
          "default-new-headless" [37, 80, 68, 70, 45] ∧
    "https://web.archive.org/web/*/https%3A%2F%2Fexample.com%2F"
      ≠ "https://web.archive.org/web/*/https%3A%2F%2Fexample.com" :=
  ⟨rfl, by decide⟩

/-- Witness for claim C6 (amended): the all-successful environment, whose PDF
export returns the %PDF- magic bytes, yields the 200 response with the exact
%2F proxy URL, the first strategy's label, and those bytes. -/
theorem c6_witness :
    (PdfBeans.POST (.ok ⟨.str "https://example.com", .str "wayback"⟩) envAllOk none).fst
      = .pdfSuccess "https://web.archive.org/web/*/https%3A%2F%2Fexample.com%2F"
          "default-new-headless" [37, 80, 68, 70, 45] ∧
    "default-new-headless" ≠ "" :=
  c6_wayback_end_to_end envAllOk none () "default-new-headless" () [37, 80, 68, 70, 45]
    rfl rfl rfl rfl

/-- Witness for claim C5: the archive-ph entry applied twice to "abc" gives
the same fixed-stem-plus-encoding result. -/
theorem c5_witness :
    (PdfBeans.lookupService "archive-ph").map (fun e => e.buildUrl "abc")
      = some ("https://archive.ph/" ++ encodeURIComponent "abc") ∧
    (PdfBeans.lookupService "archive-ph").map (fun e => e.buildUrl "abc")
      = (PdfBeans.lookupService "archive-ph").map (fun e => e.buildUrl "abc") :=
  ⟨c5_buildUrl_pure_percent_encoding.1 "abc",
   c5_buildUrl_pure_percent_encoding.2.2.2.2.2.2.1 "abc"⟩

/-- Witness for claim C9: the two renderers agree at a concrete environment,
target and corresponding key pair. -/
theorem c9_witness :
    PdfBeans.generatePdf envAllOk none "wayback" "https://example.com/"
      = ArchiveStudio.renderArchivePdf envAllOk none "internet-archive" "https://example.com/" :=
  c9_sibling_equivalence.2.2.2.2.2.2.1 Unit Unit envAllOk none "https://example.com/"

/-- Witness for claim C10: a concrete JSON parse failure is answered with 500
and its message, with no launch attempted. -/
theorem c10_witness :
    PdfBeans.POST (.error "Unexpected token < in JSON at position 0") envAllOk none
      = (.jsonError 500 "Unexpected token < in JSON at position 0", []) ∧
    statusOf (PdfBeans.POST (.error "Unexpected token < in JSON at position 0")
        envAllOk none).fst = 500 :=
  c10_unparsable_body_maps_to_500 "Unexpected token < in JSON at position 0" envAllOk none
